import Mathlib

/-!
Verification of the market-data loader (baseloader3 / coinbaseloader3).

The development shallowly embeds the two Python modules:
* `Baseloader3` models `BaseDataLoader._get_req` — including the decoded
  JSON body and the uncaught `TypeError` its diagnostic-message
  extraction raises on non-dict bodies — and the pydantic schemas
  `Pair`, `Stat` (with its field constraints and validators),
  `GetStatsResponse`, `HistoricalDataEntry`, `GetHistoricalDataResponse`.
* `Coinbaseloader3` models the pydantic schemas `Pair` (with the
  `id_must_contain_dash` validator), `Stat`, `HistoricalDataItem` and
  `HistoricalData` (with the non-emptiness validator).

Python floats are modelled as `Rat` (all constants involved are small
decimals and only order comparisons matter); Python ints as `Int`;
pydantic validation as an explicit function returning `Except`, with the
error side carrying the aggregated list of violations, mirroring pydantic
v1 `ValidationError` which collects one entry per failed field constraint
(later validators of a field are skipped once that field has failed).
-/

deriving instance DecidableEq for Except

namespace Baseloader3

/-- One entry of a pydantic v1 `ValidationError`: the field it concerns
and the message of the failed constraint.  -/
structure Violation where
  fieldName : String
  msg : String
deriving DecidableEq, Repr

/-- A decoded JSON value, as returned by `response.json()`.  JSON
numbers are modelled by integers: a non-integral number behaves exactly
like an integral one in every operation `_get_req` performs on the
decoded value (the `in` membership test raises `TypeError` on either). -/
inductive Json where
  | null : Json
  | bool (b : Bool) : Json
  | num (n : Int) : Json
  | str (s : String) : Json
  | arr (elems : List Json) : Json
  | obj (fields : List (String × Json)) : Json

mutual
/-- Python `repr()` of a decoded JSON value (`repr` of a string is
modelled without Python's internal escaping — exact for strings free of
quotes and backslashes). -/
def pyRepr : Json → String
  | .null => "None"
  | .bool true => "True"
  | .bool false => "False"
  | .num n => toString n
  | .str s => "\x27" ++ s ++ "\x27"
  | .arr elems => "[" ++ pyReprElems elems ++ "]"
  | .obj fields => "\x7b" ++ pyReprFields fields ++ "\x7d"

/-- `repr()` of the comma-separated elements of a Python list. -/
def pyReprElems : List Json → String
  | [] => ""
  | [x] => pyRepr x
  | x :: y :: xs => pyRepr x ++ ", " ++ pyReprElems (y :: xs)

/-- `repr()` of the comma-separated items of a Python dict. -/
def pyReprFields : List (String × Json) → String
  | [] => ""
  | [(k, v)] => "\x27" ++ k ++ "\x27: " ++ pyRepr v
  | (k, v) :: y :: xs =>
    "\x27" ++ k ++ "\x27: " ++ pyRepr v ++ ", " ++ pyReprFields (y :: xs)
end

/-- Python `str()` of a decoded JSON value, as the f-string interpolates
the `message` value: a string renders as itself, everything else as its
`repr()`. -/
def pyStr : Json → String
  | .str s => s
  | v => pyRepr v

/-- Python's substring membership `needle in hay` on strings. -/
def pyInStr (needle : List Char) : List Char → Bool
  | [] => needle.isEmpty
  | c :: rest => needle.isPrefixOf (c :: rest) || pyInStr needle rest

/-- Python equality of a decoded JSON element with the string
`"message"` (as the list membership `'message' in json_response`
compares elements): only a string can equal a string. -/
def isMessageStr : Json → Bool
  | .str s => s == "message"
  | _ => false

/-- The HTTP response body as seen by `_get_req`: `empty` (falsy
`response.text`), `notJson` (non-empty text on which `response.json()`
raises `ValueError`), or `json v` (text that decodes to the JSON value
`v`). -/
inductive Body where
  | empty : Body
  | notJson (text : String) : Body
  | json (v : Json) : Body

/-- Ways `_get_req` can fail: the `RuntimeError` composed for a non-200
status; the uncaught `TypeError` that the diagnostic
`'message' in json_response` or `json_response['message']` raises when
the decoded body is not a dict (`except ValueError` does not catch it);
and the JSON decode error `response.json()` raises on the 200 path when
the body is not JSON. -/
inductive GetReqError where
  | requestFailed (msg : String) : GetReqError
  | typeError : GetReqError
  | jsonDecodeError : GetReqError
deriving DecidableEq, Repr

/-- `BaseDataLoader._get_req`: build the request URL; on a non-200
status compose the diagnostic message and run, under `except ValueError`
only, `'message' in json_response` followed by
`json_response['message']`.  With a dict body this appends the
`message` value when the key is present and raises the composed
`RuntimeError`; with a scalar body (`null`, bool, number) the membership
test raises an uncaught `TypeError`; with a str or list body containing
`"message"` the membership succeeds and the subscript raises an
uncaught `TypeError`; a str or list body without `"message"`, an empty
body, or an undecodable body (its `ValueError` is caught and passed)
raises the composed `RuntimeError`.  On 200 the decoded JSON body is
returned. -/
def getReq (base_url resource : String) (status : Nat) (body : Body) :
    Except GetReqError Json :=
  let req_url := base_url ++ resource
  if status ≠ 200 then
    let msg := "Не вдалося запросити дані з " ++ req_url ++ ", статус: "
        ++ toString status
    match body with
    | .empty => .error (.requestFailed msg)
    | .notJson _ => .error (.requestFailed msg)
    | .json (.obj fields) =>
      match fields.lookup "message" with
      | some mv => .error (.requestFailed (msg ++ ", повідомлення: " ++ pyStr mv))
      | none => .error (.requestFailed msg)
    | .json (.str s) =>
      if pyInStr "message".toList s.toList then .error .typeError
      else .error (.requestFailed msg)
    | .json (.arr elems) =>
      if elems.any isMessageStr then .error .typeError
      else .error (.requestFailed msg)
    | .json _ => .error .typeError
  else
    match body with
    | .json v => .ok v
    | _ => .error .jsonDecodeError

/-- Bodies on which the diagnostic message extraction of `_get_req`
cannot raise `TypeError`: an empty or undecodable body, a JSON object,
or a JSON string or array not containing `"message"`. -/
def Body.diagnosticSafe : Body → Bool
  | .empty => true
  | .notJson _ => true
  | .json (.obj _) => true
  | .json (.str s) => !(pyInStr "message".toList s.toList)
  | .json (.arr elems) => !(elems.any isMessageStr)
  | .json _ => false

/-- `Pair` of baseloader3: three string fields, no validators. -/
structure Pair where
  id : String
  base : String
  quote : String
deriving DecidableEq, Repr

/-- Consume exactly `n` characters matching `[A-Z]` from `cs`
(the semantics of the regex atom `[A-Z]{n}`). -/
def consumeUpper : Nat → List Char → Option (List Char)
  | 0, cs => some cs
  | _ + 1, [] => none
  | n + 1, c :: cs => if c.isUpper then consumeUpper n cs else none

/-- Matcher for the anchored regex on `Stat.pair_id`,
`[A-Z]` three to five times, twice, with the repetition counts chosen
nondeterministically (equivalent to the backtracking a regex engine does). -/
def pairIdRegexMatch (s : String) : Bool :=
  [3, 4, 5].any fun a =>
    [3, 4, 5].any fun b =>
      match consumeUpper a s.toList with
      | none => false
      | some r =>
        match consumeUpper b r with
        | none => false
        | some r2 => r2.isEmpty

/-- Wire-level input to `Stat` validation: the three fields as decoded
from JSON, before constraint checking. -/
structure StatInput where
  pair_id : String
  volume : Int
  price : Rat
deriving DecidableEq, Repr

/-- A validated `Stat` record of baseloader3. -/
structure Stat where
  pair_id : String
  volume : Int
  price : Rat
deriving DecidableEq, Repr

/-- Violations of the `pair_id` field: the `Field` regex constraint runs
first; only if it passes does the `validate_pair_id` length validator
run (pydantic v1 stops validating a field at its first failure). -/
def pairIdFieldErrors (v : String) : List Violation :=
  if pairIdRegexMatch v = false then
    [⟨"pair_id", "string does not match regex"⟩]
  else if v.length < 6 || v.length > 10 then
    [⟨"pair_id", "Pair ID length must be between 6 and 10 characters"⟩]
  else []

/-- Violations of the `volume` field (`ge = 0`). -/
def volumeFieldErrors (v : Int) : List Violation :=
  if v < 0 then
    [⟨"volume", "ensure this value is greater than or equal to 0"⟩]
  else []

/-- Violations of the `price` field: the `Field` constraint `gt = 0`
runs first; only if it passes does the `validate_price` floor validator
run. -/
def priceFieldErrors (v : Rat) : List Violation :=
  if v ≤ 0 then
    [⟨"price", "ensure this value is greater than 0"⟩]
  else if v < mkRat 1 100 then
    [⟨"price", "Price must be at least 0.01"⟩]
  else []

/-- Validation of one `Stat` record: pydantic validates the fields in
declaration order, aggregating every field's violations; the record is
constructed only when no field failed. -/
def validateStat (inp : StatInput) : Except (List Violation) Stat :=
  let errs := pairIdFieldErrors inp.pair_id ++ volumeFieldErrors inp.volume
      ++ priceFieldErrors inp.price
  if errs.isEmpty then .ok ⟨inp.pair_id, inp.volume, inp.price⟩
  else .error errs

/-- Encoding a validated `Stat` back to its wire shape (`.dict()`):
the fields verbatim. -/
def statToWire (s : Stat) : StatInput :=
  ⟨s.pair_id, s.volume, s.price⟩

/-- Violations of the elements of a `List[Stat]` field, each tagged with
the element's index as pydantic tags error locations. -/
def statsErrors : Nat → List StatInput → List (Nat × Violation)
  | _, [] => []
  | i, inp :: rest =>
    (match validateStat inp with
      | .ok _ => []
      | .error es => es.map fun e => (i, e)) ++ statsErrors (i + 1) rest

/-- `GetStatsResponse`: validate every element of `stats`, aggregating
all violations; succeed with the typed list only when no element
failed. -/
def validateGetStatsResponse (stats : List StatInput) :
    Except (List (Nat × Violation)) (List Stat) :=
  let errs := statsErrors 0 stats
  if errs.isEmpty then
    .ok (stats.filterMap fun inp => (validateStat inp).toOption)
  else .error errs

/-- `HistoricalDataEntry` of baseloader3 (timestamp as epoch integer). -/
structure HistoricalDataEntry where
  timestamp : Int
  pair_id : String
  price : Rat
deriving DecidableEq, Repr

/-- `GetHistoricalDataResponse`: a bare `List[HistoricalDataEntry]`
field with no validator, so any well-typed list is accepted verbatim. -/
def validateGetHistoricalDataResponse (historical_data : List HistoricalDataEntry) :
    Except String (List HistoricalDataEntry) :=
  .ok historical_data

end Baseloader3

namespace Coinbaseloader3

/-- `Pair` of coinbaseloader3: four string fields. -/
structure Pair where
  id : String
  base_currency : String
  quote_currency : String
  base_min_size : String
deriving DecidableEq, Repr

/-- Construction of a `Pair`: the `id_must_contain_dash` validator
rejects any id not containing the character `-`. -/
def validatePair (id base_currency quote_currency base_min_size : String) :
    Except String Pair :=
  if id.toList.contains '-' then
    .ok ⟨id, base_currency, quote_currency, base_min_size⟩
  else .error "ID must contain a dash (-)"

/-- Follows the spec's invariant wording (not the code): the identifier
structurally links the base and quote symbols via the exchange's dash
separator, i.e. it is the base symbol, a dash, then the quote symbol. -/
def idLinksBaseQuote (p : Pair) : Bool :=
  p.id == p.base_currency ++ "-" ++ p.quote_currency

/-- `Stat` of coinbaseloader3: six string fields, no validators. -/
structure Stat where
  id : String
  base_currency : String
  quote_currency : String
  base_min_size : String
  quote_increment : String
  display_name : String
deriving DecidableEq, Repr

/-- Validation of coinbaseloader3's `Stat`: every well-typed payload is
accepted with the fields verbatim. -/
def validateStat (id base_currency quote_currency base_min_size
    quote_increment display_name : String) : Except String Stat :=
  .ok ⟨id, base_currency, quote_currency, base_min_size, quote_increment,
    display_name⟩

/-- `HistoricalDataItem` of coinbaseloader3: one OHLCV bar. -/
structure HistoricalDataItem where
  timestamp : Int
  low : Rat
  high : Rat
  «open» : Rat
  close : Rat
  volume : Rat
deriving DecidableEq, Repr

/-- `HistoricalData`: the `data_must_contain_at_least_one_item`
validator rejects a list with fewer than one element. -/
def validateHistoricalData (data : List HistoricalDataItem) :
    Except String (List HistoricalDataItem) :=
  if data.length < 1 then
    .error "Historical data must contain at least one item"
  else .ok data

end Coinbaseloader3

open Baseloader3

/-- Consuming `n` uppercase characters removes exactly `n` characters. -/
theorem consumeUpper_length : ∀ {n : Nat} {cs r : List Char},
    consumeUpper n cs = some r → cs.length = n + r.length := by
  intro n
  induction n with
  | zero =>
    intro cs r h
    simp [consumeUpper] at h
    subst h
    simp
  | succ m ih =>
    intro cs r h
    cases cs with
    | nil => simp [consumeUpper] at h
    | cons c cs' =>
      simp only [consumeUpper] at h
      split at h
      · have := ih h
        simp [List.length_cons]
        omega
      · simp at h

/-- A string matched by the `pair_id` regex has length between 6 and 10. -/
theorem pairIdRegexMatch_length {s : String} (h : pairIdRegexMatch s = true) :
    6 ≤ s.length ∧ s.length ≤ 10 := by
  unfold pairIdRegexMatch at h
  simp only [List.any_eq_true] at h
  obtain ⟨a, ha, b, hb, hmatch⟩ := h
  cases hca : consumeUpper a s.toList with
  | none => simp only [hca] at hmatch; exact absurd hmatch (by decide)
  | some r =>
    simp only [hca] at hmatch
    cases hcb : consumeUpper b r with
    | none => simp only [hcb] at hmatch; exact absurd hmatch (by decide)
    | some r2 =>
      simp only [hcb] at hmatch
      have hr2 : r2 = [] := by simpa [List.isEmpty_iff] using hmatch
      have l1 := consumeUpper_length hca
      have l2 := consumeUpper_length hcb
      have hs : s.toList.length = s.length := rfl
      rw [hs] at l1
      subst hr2
      simp only [List.length_nil] at l2
      simp only [List.mem_cons, List.not_mem_nil, or_false] at ha hb
      rcases ha with rfl | rfl | rfl <;> rcases hb with rfl | rfl | rfl <;> omega

/-- A failed `Stat` validation always carries at least one violation. -/
theorem validateStat_error_ne_nil {inp : StatInput} {es : List Violation}
    (h : validateStat inp = .error es) : es ≠ [] := by
  simp only [validateStat] at h
  split at h
  · exact absurd h (by simp)
  · next hcond =>
    injection h with h'
    subst h'
    simpa [List.isEmpty_iff] using hcond

/-- If some element of the list fails `Stat` validation, the aggregated
error list of the collection is non-empty, wherever indexing starts. -/
theorem statsErrors_ne_nil {inp : StatInput} {es : List Violation}
    (hbad : validateStat inp = .error es) :
    ∀ (stats : List StatInput) (i : Nat), inp ∈ stats → statsErrors i stats ≠ [] := by
  intro stats
  induction stats with
  | nil => intro i h; simp at h
  | cons head tail ih =>
    intro i hmem
    rcases List.mem_cons.mp hmem with rfl | hmem'
    · intro heq
      simp only [statsErrors, hbad, List.append_eq_nil, List.map_eq_nil_iff] at heq
      exact validateStat_error_ne_nil hbad heq.1
    · intro heq
      simp only [statsErrors, List.append_eq_nil] at heq
      exact ih (i + 1) hmem' heq.2

/-- Counterexample to C1: a 404 response whose body is valid JSON
decoding to the scalar `42` makes `_get_req` die with the uncaught
`TypeError` raised by `'message' in 42` (`except ValueError` does not
catch it), so no `RequestFailed` error carrying the URL and status is
raised — contradicting "regardless of body content". -/
theorem getReq_non200_scalar_body_typeError :
    getReq "https://api.example.com" "/get_pairs" 404 (.json (.num 42)) =
      .error .typeError ∧
    ∀ msg, getReq "https://api.example.com" "/get_pairs" 404 (.json (.num 42)) ≠
      .error (.requestFailed msg) := by
  refine ⟨rfl, ?_⟩
  intro msg hmsg
  simp [getReq] at hmsg

/-- C1 (amended): for every HTTP response with a non-200 status code
whose body is empty, is not parseable as JSON, decodes to a JSON object,
or decodes to a JSON string or array not containing `"message"`,
`_get_req` fails with the `RequestFailed` error whose message embeds the
request URL and the observed status code; in particular a body that
cannot be parsed as JSON still yields the error.  (Bodies decoding to a
JSON scalar, or to a string or array containing `"message"`, instead
raise an uncaught `TypeError`.) -/
theorem getReq_non200_requestFailed (base_url resource : String) (status : Nat)
    (body : Body) (h : status ≠ 200) (hsafe : body.diagnosticSafe = true) :
    ∃ suffix, getReq base_url resource status body =
      .error (.requestFailed ("Не вдалося запросити дані з "
        ++ (base_url ++ resource) ++ ", статус: " ++ toString status ++ suffix)) := by
  cases body with
  | empty => exact ⟨"", by simp [getReq, h]⟩
  | notJson t => exact ⟨"", by simp [getReq, h]⟩
  | json v =>
    cases v with
    | null => exact absurd hsafe (by simp [Body.diagnosticSafe])
    | bool b => exact absurd hsafe (by simp [Body.diagnosticSafe])
    | num n => exact absurd hsafe (by simp [Body.diagnosticSafe])
    | str s =>
      have hs : pyInStr "message".toList s.toList = false := by
        simpa [Body.diagnosticSafe] using hsafe
      have hs2 : pyInStr ['m', 'e', 's', 's', 'a', 'g', 'e'] s.data = false := hs
      exact ⟨"", by simp [getReq, h, hs2]⟩
    | arr elems =>
      have hs : elems.any isMessageStr = false := by
        simpa [Body.diagnosticSafe] using hsafe
      exact ⟨"", by simp [getReq, h, hs]⟩
    | obj fields =>
      cases hl : fields.lookup "message" with
      | none => exact ⟨"", by simp [getReq, h, hl]⟩
      | some mv =>
        exact ⟨", повідомлення: " ++ pyStr mv,
          by simp [getReq, h, hl, String.append_assoc]⟩

/-- Witness for C1 (amended): a 404 response with a non-JSON body still
yields the composed `RequestFailed` error. -/
theorem getReq_non200_requestFailed_witness :
    ∃ suffix, getReq "https://api.example.com" "/get_pairs" 404 (.notJson "oops") =
      .error (.requestFailed ("Не вдалося запросити дані з "
        ++ ("https://api.example.com" ++ "/get_pairs") ++ ", статус: "
        ++ toString 404 ++ suffix)) :=
  getReq_non200_requestFailed "https://api.example.com" "/get_pairs" 404
    (.notJson "oops") (by decide) (by decide)

/-- C2: if any single element of a stats collection fails its field
constraints, validation of the whole `GetStatsResponse` collection fails,
whatever the other elements are. -/
theorem getStatsResponse_rejects_any_invalid_element (stats : List StatInput)
    (inp : StatInput) (es : List Violation) (hmem : inp ∈ stats)
    (hbad : validateStat inp = .error es) :
    ∃ E, validateGetStatsResponse stats = .error E := by
  have hne := statsErrors_ne_nil hbad stats 0 hmem
  refine ⟨statsErrors 0 stats, ?_⟩
  simp only [validateGetStatsResponse]
  rw [if_neg]
  simp [List.isEmpty_iff, hne]

/-- Witness for C2: one invalid element among valid ones fails the whole
collection. -/
theorem getStatsResponse_rejects_any_invalid_element_witness :
    ∃ E, validateGetStatsResponse
      [⟨"BTCUSD", 123456, 40000⟩, ⟨"ETHUSD", -100, mkRat 5001 2⟩] = .error E :=
  getStatsResponse_rejects_any_invalid_element _ ⟨"ETHUSD", -100, mkRat 5001 2⟩
    [⟨"volume", "ensure this value is greater than or equal to 0"⟩]
    (by decide) (by decide)

/-- C3: validating an empty historical-data collection as
`HistoricalData` fails with the minimum-cardinality violation; an empty
series is never an empty success. -/
theorem historicalData_rejects_empty :
    Coinbaseloader3.validateHistoricalData [] =
      .error "Historical data must contain at least one item" := rfl

/-- C4: every `StatInput` whose `pair_id` matches the uppercase
two-symbol regex, whose volume is non-negative and whose price is at
least 0.01 validates successfully, with the record's fields equal to the
input values exactly. -/
theorem statValidation_accepts_valid (inp : StatInput)
    (hid : pairIdRegexMatch inp.pair_id = true) (hvol : 0 ≤ inp.volume)
    (hpr : mkRat 1 100 ≤ inp.price) :
    validateStat inp = .ok ⟨inp.pair_id, inp.volume, inp.price⟩ := by
  obtain ⟨h6, h10⟩ := pairIdRegexMatch_length hid
  have hc1 : ¬(pairIdRegexMatch inp.pair_id = false) := by simp [hid]
  have hc2 : (inp.pair_id.length < 6 || inp.pair_id.length > 10) ≠ true := by
    simp only [ne_eq, Bool.or_eq_true, decide_eq_true_eq, not_or]
    omega
  have h1 : pairIdFieldErrors inp.pair_id = [] := by
    unfold pairIdFieldErrors
    rw [if_neg hc1, if_neg hc2]
  have hc3 : ¬(inp.volume < 0) := by omega
  have h2 : volumeFieldErrors inp.volume = [] := by
    unfold volumeFieldErrors
    rw [if_neg hc3]
  have hc4 : ¬(inp.price ≤ 0) := fun hle => absurd (le_trans hpr hle) (by decide)
  have h3 : priceFieldErrors inp.price = [] := by
    unfold priceFieldErrors
    rw [if_neg hc4, if_neg (not_lt.mpr hpr)]
  simp [validateStat, h1, h2, h3]

/-- Witness for C4: the valid example input validates to itself. -/
theorem statValidation_accepts_valid_witness :
    validateStat ⟨"BTCUSD", 123456, 40000⟩ = .ok ⟨"BTCUSD", 123456, 40000⟩ :=
  statValidation_accepts_valid ⟨"BTCUSD", 123456, 40000⟩ (by decide) (by decide)
    (by decide)

/-- C5: the triply-invalid example input fails `Stat` validation with all
three violations reported — id format, negative volume, sub-floor price —
not only the first one found. -/
theorem statValidation_aggregates_all_violations :
    validateStat ⟨"BTC_USD", -100, mkRat 5 1000⟩ =
      .error [⟨"pair_id", "string does not match regex"⟩,
        ⟨"volume", "ensure this value is greater than or equal to 0"⟩,
        ⟨"price", "Price must be at least 0.01"⟩] := by decide

/-- Counterexample to C6: a pair whose identifier does not link its base
and quote symbols ("BTC-USD" against base "ETH", quote "EUR") is still
accepted at construction, so the structural-link invariant does not hold. -/
theorem pair_accepts_unlinked_id :
    Coinbaseloader3.validatePair "BTC-USD" "ETH" "EUR" "0.001" =
      .ok ⟨"BTC-USD", "ETH", "EUR", "0.001"⟩ ∧
    Coinbaseloader3.idLinksBaseQuote ⟨"BTC-USD", "ETH", "EUR", "0.001"⟩ = false := by
  decide

/-- C6 (amended): `Pair` construction checks only that the identifier
contains a dash — it succeeds exactly when `id` contains the character
`-`, with no check linking the identifier to the base and quote symbols. -/
theorem pair_construction_checks_dash_only (id b q m : String) :
    (∃ p, Coinbaseloader3.validatePair id b q m = .ok p) ↔
      id.toList.contains '-' = true := by
  unfold Coinbaseloader3.validatePair
  split <;> simp_all

/-- Witness for C6 (amended): a dashed identifier is accepted. -/
theorem pair_construction_checks_dash_only_witness :
    ∃ p, Coinbaseloader3.validatePair "BTC-USD" "BTC" "USD" "0.001" = .ok p :=
  (pair_construction_checks_dash_only "BTC-USD" "BTC" "USD" "0.001").mpr (by decide)

/-- C7: re-validating the wire encoding of any successfully validated
`Stat` record yields the identical record. -/
theorem statValidation_roundtrip (inp : StatInput) (s : Stat)
    (h : validateStat inp = .ok s) : validateStat (statToWire s) = .ok s := by
  simp only [validateStat] at h
  split at h
  · next hcond =>
    injection h with h'
    subst h'
    simp only [validateStat, statToWire]
    rw [if_pos hcond]
  · exact absurd h (by simp)

/-- Witness for C7: round-trip on the valid example record. -/
theorem statValidation_roundtrip_witness :
    validateStat (statToWire ⟨"BTCUSD", 123456, 40000⟩) =
      .ok ⟨"BTCUSD", 123456, 40000⟩ :=
  statValidation_roundtrip ⟨"BTCUSD", 123456, 40000⟩ ⟨"BTCUSD", 123456, 40000⟩
    (by decide)

/-- Counterexample to C8: the claimed separating input "AAABBBB" in fact
satisfies the letter-group regex as well as the length check (the regex
backtracks to a 3-letter first group and a 4-letter second group), so it
does not separate the two checks. -/
theorem regexMatches_AAABBBB :
    pairIdRegexMatch "AAABBBB" = true ∧
      6 ≤ "AAABBBB".length ∧ "AAABBBB".length ≤ 10 := by decide

/-- C8 (amended): the regex check and the secondary length check on
`Stat.pair_id` are not strictly equivalent — "BTC_USD" passes the length
check but fails the letter-group regex. -/
theorem regex_and_length_check_differ :
    pairIdRegexMatch "BTC_USD" = false ∧
      6 ≤ "BTC_USD".length ∧ "BTC_USD".length ≤ 10 := by decide

/-- C9: `GetHistoricalDataResponse` accepts an empty historical-data
list, returning a record with an empty sequence — unlike
`HistoricalData`, it enforces no minimum cardinality. -/
theorem getHistoricalDataResponse_accepts_empty :
    validateGetHistoricalDataResponse [] = .ok [] := rfl

/-- C10: the coinbaseloader3 `Stat` schema accepts any payload supplying
string values for its six fields, taking the fields verbatim with no
constraint checked. -/
theorem coinbaseStat_accepts_any_strings (a b c d e f : String) :
    Coinbaseloader3.validateStat a b c d e f = .ok ⟨a, b, c, d, e, f⟩ := rfl
